import Mathlib

/-!
# IQaudIO DAC machine driver (`sound/soc/rockchip/iqaudio-dac.c`)

A shallow embedding of the control logic of the driver: the clock
negotiation done in `hw_params`, the two mute helpers, the bias-level
hook, and the platform `probe` / `remove` entry points.

The driver's file-scope variables (`digital_gain_0db_limit`, `mute_gpio`,
the card `snd_rpi_iqaudio_dac` and its DAI link) are gathered in `State`,
together with the logical level of every GPIO line and the trace of calls
made into the rest of the kernel.  Every driver function maps a `State`
to a new `State` and, when the C function returns `int`, a return code.
Pointers are modelled by natural-number identities; results of calls into
code outside the driver are parameters.
-/

namespace IqaudioDac

/-! ## Machine integers -/

/-- Number of values of a C `unsigned int` (32 bits). -/
def UINT_RANGE : Nat := 4294967296

/-- Largest value of a C `int` (32 bits). -/
def INT_MAX : Int := 2147483647

/-- Conversion of an integer value to C `unsigned int`: reduction modulo `2^32`. -/
def to_uint (x : Int) : Nat := (x % 4294967296).toNat

/-- Product of two `unsigned int` values, computed in `unsigned int`. -/
def uint_mul (a b : Nat) : Nat := (a * b) % UINT_RANGE

/-- The constant of `#define ROCKCHIP_I2S_MCLK 512`. -/
def ROCKCHIP_I2S_MCLK : Nat := 512

/-- The errno constant `EPROBE_DEFER` of `include/linux/errno.h`. -/
def EPROBE_DEFER : Int := 517

/-! ## Kernel types used by the driver -/

/-- The type `enum snd_soc_bias_level`. -/
inductive snd_soc_bias_level where
  | SND_SOC_BIAS_OFF
  | SND_SOC_BIAS_STANDBY
  | SND_SOC_BIAS_PREPARE
  | SND_SOC_BIAS_ON
  deriving DecidableEq, Repr

open snd_soc_bias_level

/-- Direction argument of `snd_soc_dai_set_sysclk`. -/
inductive clock_dir where
  | SND_SOC_CLOCK_IN
  | SND_SOC_CLOCK_OUT
  deriving DecidableEq, Repr

/-- A value of type `struct gpio_desc *`: `NULL`, an `ERR_PTR` carrying an
errno, or a pointer to the descriptor of line `d`. -/
inductive gpio_ptr where
  | null
  | err (e : Int)
  | desc (d : Nat)
  deriving DecidableEq, Repr

/-- The C truth value of a descriptor pointer (`if (mute_gpio)`): every
pointer other than `NULL` is true. -/
def gpio_ptr.nonnull : gpio_ptr → Bool
  | .null => false
  | _ => true

/-- The test `IS_ERR(ptr)`. -/
def IS_ERR : gpio_ptr → Bool
  | .err _ => true
  | _ => false

/-- The value `PTR_ERR(ptr)`, read only after `IS_ERR` held. -/
def PTR_ERR : gpio_ptr → Int
  | .err e => e
  | _ => 0

/-- Calls made by the driver into the rest of the kernel, in the order made. -/
inductive Event where
  | dev_info (dev : Option Nat) (msg : String)
  | dev_err (dev : Nat) (fmt : String) (arg : Int)
  | devm_gpiod_get_optional (dev : Nat) (con_id : String) (result : gpio_ptr)
  | gpiod_set_value_cansleep (desc : gpio_ptr) (value : Int)
  | snd_soc_register_card (ret : Int)
  | snd_soc_unregister_card (ret : Int)
  | snd_soc_dai_set_sysclk (dai : Nat) (clk_id : Int) (freq : Nat) (dir : clock_dir)
  | snd_soc_dai_set_bclk_ratio (dai : Nat) (ratio : Nat)
  deriving DecidableEq, Repr

/-- The fields of `struct snd_soc_dai_link` that the driver sets. -/
structure snd_soc_dai_link where
  name : Option String
  stream_name : Option String
  cpu_dai_name : Option String
  codec_dai_name : Option String
  platform_name : Option String
  codec_name : Option String
  cpu_of_node : Option Nat
  platform_of_node : Option Nat
  deriving DecidableEq, Repr

/-- The fields of `struct snd_soc_card` that the driver sets.  The only
function ever stored in `set_bias_level` is `snd_rpi_iqaudio_set_bias_level`,
so the hook pointer is a flag: installed or `NULL`. -/
structure snd_soc_card where
  name : Option String
  dev : Option Nat
  dai_link : snd_soc_dai_link
  set_bias_level : Bool
  deriving DecidableEq, Repr

/-- A DAI as the driver sees it: its device, and the return codes its
clocking operations give. -/
structure snd_soc_dai where
  dev : Nat
  set_sysclk : Int → Nat → clock_dir → Int
  set_bclk_ratio : Nat → Int

/-- The fields of `struct snd_soc_pcm_runtime` the driver reads. -/
structure snd_soc_pcm_runtime where
  cpu_dai : snd_soc_dai
  codec_dai : snd_soc_dai

/-- The fields of `struct snd_soc_dapm_context` the driver reads. -/
structure snd_soc_dapm_context where
  dev : Nat
  bias_level : snd_soc_bias_level
  deriving DecidableEq, Repr

/-- The device-tree properties `probe` reads from `pdev->dev.of_node`. -/
structure device_node where
  i2s_controller : Option Nat
  gain_24db : Bool
  card_name : Option String
  dai_name : Option String
  dai_stream_name : Option String
  unmute_amp : Bool
  auto_mute_amp : Bool
  deriving DecidableEq, Repr

/-- The fields of `struct platform_device` the driver reads. -/
structure platform_device where
  dev : Nat
  of_node : Option device_node
  deriving DecidableEq, Repr

/-! ## Driver state -/

/-- The file-scope variables of the driver, the logical level of each GPIO
line, and the trace of calls made so far. -/
structure State where
  digital_gain_0db_limit : Bool
  mute_gpio : gpio_ptr
  card : snd_soc_card
  gpio : Nat → Nat
  trace : List Event

/-- The static initialiser of `snd_rpi_iqaudio_dac_dai[0]`. -/
def snd_rpi_iqaudio_dac_dai : snd_soc_dai_link where
  name := none
  stream_name := none
  cpu_dai_name := some "bcm2708-i2s.0"
  codec_dai_name := some "pcm512x-hifi"
  platform_name := some "bcm2708-i2s.0"
  codec_name := some "pcm512x.6-004c"
  cpu_of_node := none
  platform_of_node := none

/-- The static initialiser of the card `snd_rpi_iqaudio_dac`: no
`set_bias_level` hook. -/
def snd_rpi_iqaudio_dac : snd_soc_card where
  name := none
  dev := none
  dai_link := snd_rpi_iqaudio_dac_dai
  set_bias_level := false

/-- The state at module load: the static initialisers, lines at the levels
`lines`, and an empty trace. -/
def module_init (lines : Nat → Nat) : State where
  digital_gain_0db_limit := true
  mute_gpio := .null
  card := snd_rpi_iqaudio_dac
  gpio := lines
  trace := []

/-- Record a call in the trace. -/
def emit (s : State) (e : Event) : State :=
  { s with trace := s.trace ++ [e] }

/-- The actuator calls in a trace: the `(descriptor, value)` pairs of its
`gpiod_set_value_cansleep` calls, in order. -/
def actuator_calls : List Event → List (gpio_ptr × Int)
  | [] => []
  | Event.gpiod_set_value_cansleep d v :: es => (d, v) :: actuator_calls es
  | _ :: es => actuator_calls es

/-- The clock-configuration calls in a trace, in order. -/
def clock_calls : List Event → List Event
  | [] => []
  | Event.snd_soc_dai_set_sysclk a b c d :: es =>
      Event.snd_soc_dai_set_sysclk a b c d :: clock_calls es
  | Event.snd_soc_dai_set_bclk_ratio a b :: es =>
      Event.snd_soc_dai_set_bclk_ratio a b :: clock_calls es
  | _ :: es => clock_calls es

/-! ## Calls into the rest of the kernel -/

/-- Modelled from the spec: the gpiolib line write `gpiod_set_value_cansleep`
(`drivers/gpio/gpiolib.c`) is not part of the driver file.  The spec's mute
actuator is "a single logical boolean muted level, backed by a hardware
line", which a write "drives to the muted level" or "to the unmuted level":
a write through a valid descriptor sets the logical level of its line to 0
when `value` is 0 and to 1 otherwise, and touches no other line.  A `NULL`
or error pointer names no line, so no level changes.  The call is recorded
in the trace in every case. -/
def gpiod_set_value_cansleep (s : State) (desc : gpio_ptr) (value : Int) : State :=
  match desc with
  | .desc d =>
      { s with
        gpio := Function.update s.gpio d (if value = 0 then 0 else 1)
        trace := s.trace ++ [Event.gpiod_set_value_cansleep desc value] }
  | _ => emit s (Event.gpiod_set_value_cansleep desc value)

/-- The call `devm_gpiod_get_optional(dev, con_id, GPIOD_OUT_LOW)`; the
pointer it returns is the parameter `result`.  On a valid descriptor the
flag `GPIOD_OUT_LOW` makes the line an output at logical level 0. -/
def devm_gpiod_get_optional (s : State) (dev : Nat) (con_id : String)
    (result : gpio_ptr) : State :=
  match result with
  | .desc d =>
      { s with
        gpio := Function.update s.gpio d 0
        trace := s.trace ++ [Event.devm_gpiod_get_optional dev con_id result] }
  | _ => emit s (Event.devm_gpiod_get_optional dev con_id result)

/-! ## The driver functions -/

/-- The function `snd_rpi_iqaudio_dac_hw_params`.  `ROCKCHIP_AUDIO` says
whether that preprocessor symbol is defined; `rate` is the `unsigned int`
value of `params_rate(params)` and `physical_width` the `int` value of
`snd_pcm_format_physical_width(params_format(params))`. -/
def snd_rpi_iqaudio_dac_hw_params ( ROCKCHIP_AUDIO : Bool) (s : State)
    (rtd : snd_soc_pcm_runtime) (rate : Nat) (physical_width : Int) : State × Int :=
  let cpu_dai := rtd.cpu_dai
  if ROCKCHIP_AUDIO then
    let mclk := uint_mul rate ROCKCHIP_I2S_MCLK
    (emit s (Event.snd_soc_dai_set_sysclk cpu_dai.dev 0 mclk clock_dir.SND_SOC_CLOCK_OUT),
      cpu_dai.set_sysclk 0 mclk clock_dir.SND_SOC_CLOCK_OUT)
  else
    let sample_bits := to_uint physical_width
    (emit s (Event.snd_soc_dai_set_bclk_ratio cpu_dai.dev (uint_mul sample_bits 2)),
      cpu_dai.set_bclk_ratio (uint_mul sample_bits 2))

/-- The function `snd_rpi_iqaudio_gpio_mute`. -/
def snd_rpi_iqaudio_gpio_mute (s : State) : State :=
  if s.mute_gpio.nonnull then
    gpiod_set_value_cansleep
      (emit s (Event.dev_info s.card.dev "snd_rpi_iqaudio_gpio_mute: muting amp using GPIO22\n"))
      s.mute_gpio 0
  else s

/-- The function `snd_rpi_iqaudio_gpio_unmute`. -/
def snd_rpi_iqaudio_gpio_unmute (s : State) : State :=
  if s.mute_gpio.nonnull then
    gpiod_set_value_cansleep
      (emit s (Event.dev_info s.card.dev "snd_rpi_iqaudio_gpio_unmute: un-muting amp using GPIO22\n"))
      s.mute_gpio 1
  else s

/-- The function `snd_rpi_iqaudio_set_bias_level`.  `rtd` is the runtime
found by `snd_soc_get_pcm_runtime` (the C code dereferences it unchecked, so
it is taken to exist); `dapm->bias_level` is the level the context is at
when the change to `level` is requested. -/
def snd_rpi_iqaudio_set_bias_level (s : State) (rtd : snd_soc_pcm_runtime)
    (dapm : snd_soc_dapm_context) (level : snd_soc_bias_level) : State × Int :=
  let codec_dai := rtd.codec_dai
  if dapm.dev ≠ codec_dai.dev then (s, 0)
  else
    match level with
    | SND_SOC_BIAS_PREPARE =>
        if dapm.bias_level ≠ SND_SOC_BIAS_STANDBY then (s, 0)
        else (snd_rpi_iqaudio_gpio_unmute s, 0)
    | SND_SOC_BIAS_STANDBY =>
        if dapm.bias_level ≠ SND_SOC_BIAS_PREPARE then (s, 0)
        else (snd_rpi_iqaudio_gpio_mute s, 0)
    | _ => (s, 0)

/-- The device-tree branch of `snd_rpi_iqaudio_dac_probe` up to the GPIO
lookup: the updates of the DAI link, the card names and the gain limit. -/
def probe_of_node (s : State) (np : device_node) : State :=
  let dai := s.card.dai_link
  let dai :=
    match np.i2s_controller with
    | some i2s_node =>
        { dai with
          cpu_dai_name := none
          cpu_of_node := some i2s_node
          platform_name := none
          platform_of_node := some i2s_node }
    | none => dai
  let card_name := match np.card_name with
    | some n => some n
    | none => some "IQaudIODAC"
  let dai := { dai with name := match np.dai_name with
    | some n => some n
    | none => some "IQaudIO DAC" }
  let dai := { dai with stream_name := match np.dai_stream_name with
    | some n => some n
    | none => some "IQaudIO DAC HiFi" }
  { s with
    digital_gain_0db_limit := !np.gain_24db
    card := { s.card with name := card_name, dai_link := dai } }

/-- The tail of `snd_rpi_iqaudio_dac_probe`, from `snd_soc_register_card`
on.  `register_ret` is the value the registration returns. -/
def probe_register (s : State) (pdev : platform_device) (gpio_unmute : Bool)
    (register_ret : Int) : State × Int :=
  let s := emit s (Event.snd_soc_register_card register_ret)
  let ret := register_ret
  if ret ≠ 0 then
    if ret ≠ -EPROBE_DEFER then
      (emit s (Event.dev_err pdev.dev "snd_soc_register_card() failed: %d\n" ret), ret)
    else (s, ret)
  else if gpio_unmute && s.mute_gpio.nonnull then
    (snd_rpi_iqaudio_gpio_unmute s, 0)
  else (s, 0)

/-- The function `snd_rpi_iqaudio_dac_probe`.  `gpiod` is the pointer
`devm_gpiod_get_optional` returns if it is called, `register_ret` the value
`snd_soc_register_card` returns if it is called. -/
def snd_rpi_iqaudio_dac_probe (s : State) (pdev : platform_device)
    (gpiod : gpio_ptr) (register_ret : Int) : State × Int :=
  let s := { s with card := { s.card with dev := some pdev.dev } }
  match pdev.of_node with
  | none => probe_register s pdev false register_ret
  | some np =>
      let s := probe_of_node s np
      let gpio_unmute := np.unmute_amp
      let auto_gpio_mute := np.auto_mute_amp
      if auto_gpio_mute || gpio_unmute then
        let s := { devm_gpiod_get_optional s pdev.dev "mute" gpiod with mute_gpio := gpiod }
        if IS_ERR s.mute_gpio then
          let ret := PTR_ERR s.mute_gpio
          (emit s (Event.dev_err pdev.dev "Failed to get mute gpio: %d\n" ret), ret)
        else
          let s :=
            if auto_gpio_mute && s.mute_gpio.nonnull then
              { s with card := { s.card with set_bias_level := true } }
            else s
          probe_register s pdev gpio_unmute register_ret
      else probe_register s pdev gpio_unmute register_ret

/-- The function `snd_rpi_iqaudio_dac_remove`.  `unregister_ret` is the
value `snd_soc_unregister_card` returns. -/
def snd_rpi_iqaudio_dac_remove (s : State) (unregister_ret : Int) : State × Int :=
  let s := snd_rpi_iqaudio_gpio_mute s
  (emit s (Event.snd_soc_unregister_card unregister_ret), unregister_ret)

/-! ## The framework's use of the bias-level hook -/

/-- Modelled from the spec: the framework's dispatch of the card's
bias-level hook (`snd_soc_dapm_set_bias_level`, `sound/soc/soc-dapm.c`) is
not part of the driver file.  The spec describes it as "framework callback
hook dispatch (bias-level hook installed conditionally)": a bias-level
change reaches `snd_rpi_iqaudio_set_bias_level` only when `probe` stored
the hook in the card, and does nothing in the driver otherwise. -/
def card_set_bias_level (s : State) (rtd : snd_soc_pcm_runtime)
    (dapm : snd_soc_dapm_context) (level : snd_soc_bias_level) : State × Int :=
  if s.card.set_bias_level then snd_rpi_iqaudio_set_bias_level s rtd dapm level
  else (s, 0)

/-- A run of bias-level notifications delivered to the handler one after
the other, each with the context it concerns and the requested level. -/
def run_bias_levels (rtd : snd_soc_pcm_runtime) :
    State → List (snd_soc_dapm_context × snd_soc_bias_level) → State
  | s, [] => s
  | s, (dapm, level) :: rest =>
      run_bias_levels rtd (snd_rpi_iqaudio_set_bias_level s rtd dapm level).1 rest

/-- A run of bias-level changes dispatched by the framework through the
card's hook. -/
def run_card_bias_levels (rtd : snd_soc_pcm_runtime) :
    State → List (snd_soc_dapm_context × snd_soc_bias_level) → State
  | s, [] => s
  | s, (dapm, level) :: rest =>
      run_card_bias_levels rtd (card_set_bias_level s rtd dapm level).1 rest

/-! ## Sample inputs -/

/-- A DAI on device 7 that accepts every clock request (returns 0). -/
def sample_cpu_dai : snd_soc_dai where
  dev := 7
  set_sysclk := fun _ _ _ => 0
  set_bclk_ratio := fun _ => 0

/-- A codec DAI on device 9. -/
def sample_codec_dai : snd_soc_dai where
  dev := 9
  set_sysclk := fun _ _ _ => 0
  set_bclk_ratio := fun _ => 0

/-- A runtime linking the two sample DAIs. -/
def sample_rtd : snd_soc_pcm_runtime where
  cpu_dai := sample_cpu_dai
  codec_dai := sample_codec_dai

/-- A state whose mute line is line 22, currently at level 1 (unmuted). -/
def sample_state : State where
  digital_gain_0db_limit := true
  mute_gpio := gpio_ptr.desc 22
  card := { snd_rpi_iqaudio_dac with dev := some 3, set_bias_level := true }
  gpio := fun _ => 1
  trace := []

/-- A device-tree node with the two mute properties as given. -/
def sample_node (auto_mute unmute : Bool) : device_node where
  i2s_controller := some 5
  gain_24db := false
  card_name := none
  dai_name := none
  dai_stream_name := none
  unmute_amp := unmute
  auto_mute_amp := auto_mute

/-- A platform device (device 3) with the node `sample_node`. -/
def sample_pdev (auto_mute unmute : Bool) : platform_device where
  dev := 3
  of_node := some (sample_node auto_mute unmute)

/-! ## Helper lemmas -/

theorem actuator_calls_append (a b : List Event) :
    actuator_calls (a ++ b) = actuator_calls a ++ actuator_calls b := by
  induction a with
  | nil => simp [actuator_calls]
  | cons e es ih => cases e <;> simp [actuator_calls, ih]

theorem clock_calls_append (a b : List Event) :
    clock_calls (a ++ b) = clock_calls a ++ clock_calls b := by
  induction a with
  | nil => simp [clock_calls]
  | cons e es ih => cases e <;> simp [clock_calls, ih]

theorem gpio_mute_null (s : State) (h : s.mute_gpio = gpio_ptr.null) :
    snd_rpi_iqaudio_gpio_mute s = s := by
  simp [snd_rpi_iqaudio_gpio_mute, h, gpio_ptr.nonnull]

theorem gpio_unmute_null (s : State) (h : s.mute_gpio = gpio_ptr.null) :
    snd_rpi_iqaudio_gpio_unmute s = s := by
  simp [snd_rpi_iqaudio_gpio_unmute, h, gpio_ptr.nonnull]

theorem gpio_mute_desc (s : State) (d : Nat) (h : s.mute_gpio = gpio_ptr.desc d) :
    snd_rpi_iqaudio_gpio_mute s =
      { s with
        gpio := Function.update s.gpio d 0
        trace := s.trace ++
          [Event.dev_info s.card.dev "snd_rpi_iqaudio_gpio_mute: muting amp using GPIO22\n",
           Event.gpiod_set_value_cansleep (gpio_ptr.desc d) 0] } := by
  simp [snd_rpi_iqaudio_gpio_mute, h, gpio_ptr.nonnull, gpiod_set_value_cansleep, emit]

theorem gpio_unmute_desc (s : State) (d : Nat) (h : s.mute_gpio = gpio_ptr.desc d) :
    snd_rpi_iqaudio_gpio_unmute s =
      { s with
        gpio := Function.update s.gpio d 1
        trace := s.trace ++
          [Event.dev_info s.card.dev "snd_rpi_iqaudio_gpio_unmute: un-muting amp using GPIO22\n",
           Event.gpiod_set_value_cansleep (gpio_ptr.desc d) 1] } := by
  simp [snd_rpi_iqaudio_gpio_unmute, h, gpio_ptr.nonnull, gpiod_set_value_cansleep, emit]

theorem gpio_mute_keeps_mute_gpio (s : State) :
    (snd_rpi_iqaudio_gpio_mute s).mute_gpio = s.mute_gpio := by
  unfold snd_rpi_iqaudio_gpio_mute gpiod_set_value_cansleep emit
  split
  · split <;> rfl
  · rfl

theorem gpio_unmute_keeps_mute_gpio (s : State) :
    (snd_rpi_iqaudio_gpio_unmute s).mute_gpio = s.mute_gpio := by
  unfold snd_rpi_iqaudio_gpio_unmute gpiod_set_value_cansleep emit
  split
  · split <;> rfl
  · rfl

theorem set_bias_level_keeps_mute_gpio (s : State) (rtd : snd_soc_pcm_runtime)
    (dapm : snd_soc_dapm_context) (level : snd_soc_bias_level) :
    (snd_rpi_iqaudio_set_bias_level s rtd dapm level).1.mute_gpio = s.mute_gpio := by
  unfold snd_rpi_iqaudio_set_bias_level
  simp only
  split
  · rfl
  · split
    · split
      · rfl
      · exact gpio_unmute_keeps_mute_gpio s
    · split
      · rfl
      · exact gpio_mute_keeps_mute_gpio s
    · rfl

theorem run_bias_levels_keeps_mute_gpio (rtd : snd_soc_pcm_runtime)
    (evs : List (snd_soc_dapm_context × snd_soc_bias_level)) (s : State) :
    (run_bias_levels rtd s evs).mute_gpio = s.mute_gpio := by
  induction evs generalizing s with
  | nil => rfl
  | cons e rest ih =>
      obtain ⟨dapm, level⟩ := e
      simp only [run_bias_levels]
      rw [ih, set_bias_level_keeps_mute_gpio]

/-! ## The bias-level handler -/

/-- C1: with a mute line configured (`mute_gpio` points to line `d`) and a
notification for the codec's own device, the handler returns 0 and adds to
the actuator calls exactly one unmute (value 1) when the context is at
STANDBY and PREPARE is requested, exactly one mute (value 0) when the
context is at PREPARE and STANDBY is requested, and nothing for every other
pair of levels.  The handler does not read the auto-mute flag, so this
holds in particular when auto-mute is enabled. -/
theorem C1_set_bias_level_actuator_calls (s : State) (rtd : snd_soc_pcm_runtime)
    (dapm : snd_soc_dapm_context) (level : snd_soc_bias_level) (d : Nat)
    (hline : s.mute_gpio = gpio_ptr.desc d) (hdev : dapm.dev = rtd.codec_dai.dev) :
    (snd_rpi_iqaudio_set_bias_level s rtd dapm level).2 = 0 ∧
    actuator_calls (snd_rpi_iqaudio_set_bias_level s rtd dapm level).1.trace =
      actuator_calls s.trace ++
        (if dapm.bias_level = SND_SOC_BIAS_STANDBY ∧ level = SND_SOC_BIAS_PREPARE then
          [(gpio_ptr.desc d, 1)]
        else if dapm.bias_level = SND_SOC_BIAS_PREPARE ∧ level = SND_SOC_BIAS_STANDBY then
          [(gpio_ptr.desc d, 0)]
        else []) := by
  obtain ⟨ddev, prev⟩ := dapm
  simp only at hdev
  subst hdev
  cases prev <;> cases level <;>
    simp [snd_rpi_iqaudio_set_bias_level, gpio_mute_desc s d hline,
      gpio_unmute_desc s d hline, actuator_calls_append, actuator_calls]

/-- Witness for C1: line 22 configured, the codec's device 9, STANDBY to
PREPARE. -/
theorem C1_set_bias_level_actuator_calls_witness :
    (snd_rpi_iqaudio_set_bias_level sample_state sample_rtd
        ⟨9, SND_SOC_BIAS_STANDBY⟩ SND_SOC_BIAS_PREPARE).2 = 0 ∧
    actuator_calls (snd_rpi_iqaudio_set_bias_level sample_state sample_rtd
        ⟨9, SND_SOC_BIAS_STANDBY⟩ SND_SOC_BIAS_PREPARE).1.trace =
      actuator_calls sample_state.trace ++
        (if (⟨9, SND_SOC_BIAS_STANDBY⟩ : snd_soc_dapm_context).bias_level
              = SND_SOC_BIAS_STANDBY ∧ SND_SOC_BIAS_PREPARE = SND_SOC_BIAS_PREPARE then
          [(gpio_ptr.desc 22, 1)]
        else if (⟨9, SND_SOC_BIAS_STANDBY⟩ : snd_soc_dapm_context).bias_level
              = SND_SOC_BIAS_PREPARE ∧ SND_SOC_BIAS_PREPARE = SND_SOC_BIAS_STANDBY then
          [(gpio_ptr.desc 22, 0)]
        else []) :=
  C1_set_bias_level_actuator_calls sample_state sample_rtd ⟨9, SND_SOC_BIAS_STANDBY⟩
    SND_SOC_BIAS_PREPARE 22 rfl rfl

/-- C5: with no mute line configured (`mute_gpio` is `NULL`) the mute and
unmute helpers, the handler for any context, any previous and any requested
level, and any run of notifications leave the whole state unchanged (in
particular the trace gains no actuator call), whatever the rest of the state
says about the auto-mute hook. -/
theorem C5_no_mute_line_no_effect (s : State) (rtd : snd_soc_pcm_runtime)
    (dapm : snd_soc_dapm_context) (level : snd_soc_bias_level)
    (evs : List (snd_soc_dapm_context × snd_soc_bias_level))
    (hnull : s.mute_gpio = gpio_ptr.null) :
    snd_rpi_iqaudio_gpio_mute s = s ∧
    snd_rpi_iqaudio_gpio_unmute s = s ∧
    snd_rpi_iqaudio_set_bias_level s rtd dapm level = (s, 0) ∧
    run_bias_levels rtd s evs = s ∧
    actuator_calls (run_bias_levels rtd s evs).trace = actuator_calls s.trace := by
  have hstep : ∀ (dp : snd_soc_dapm_context) (lv : snd_soc_bias_level),
      snd_rpi_iqaudio_set_bias_level s rtd dp lv = (s, 0) := by
    intro dp lv
    unfold snd_rpi_iqaudio_set_bias_level
    simp only [gpio_mute_null s hnull, gpio_unmute_null s hnull]
    split
    · rfl
    · split <;> simp
  have hrun : run_bias_levels rtd s evs = s := by
    induction evs with
    | nil => rfl
    | cons e rest ih =>
        obtain ⟨dp, lv⟩ := e
        simp only [run_bias_levels, hstep dp lv]
        exact ih
  exact ⟨gpio_mute_null s hnull, gpio_unmute_null s hnull, hstep dapm level, hrun,
    by rw [hrun]⟩

/-- Witness for C5: the state at module load has no mute line; STANDBY to
PREPARE on the codec's device. -/
theorem C5_no_mute_line_no_effect_witness :
    snd_rpi_iqaudio_gpio_mute (module_init (fun _ => 1)) = module_init (fun _ => 1) ∧
    snd_rpi_iqaudio_gpio_unmute (module_init (fun _ => 1)) = module_init (fun _ => 1) ∧
    snd_rpi_iqaudio_set_bias_level (module_init (fun _ => 1)) sample_rtd
        ⟨9, SND_SOC_BIAS_STANDBY⟩ SND_SOC_BIAS_PREPARE = (module_init (fun _ => 1), 0) ∧
    run_bias_levels sample_rtd (module_init (fun _ => 1))
        [(⟨9, SND_SOC_BIAS_STANDBY⟩, SND_SOC_BIAS_PREPARE),
         (⟨9, SND_SOC_BIAS_PREPARE⟩, SND_SOC_BIAS_STANDBY)] = module_init (fun _ => 1) ∧
    actuator_calls (run_bias_levels sample_rtd (module_init (fun _ => 1))
        [(⟨9, SND_SOC_BIAS_STANDBY⟩, SND_SOC_BIAS_PREPARE),
         (⟨9, SND_SOC_BIAS_PREPARE⟩, SND_SOC_BIAS_STANDBY)]).trace
      = actuator_calls (module_init (fun _ => 1)).trace :=
  C5_no_mute_line_no_effect (module_init (fun _ => 1)) sample_rtd
    ⟨9, SND_SOC_BIAS_STANDBY⟩ SND_SOC_BIAS_PREPARE
    [(⟨9, SND_SOC_BIAS_STANDBY⟩, SND_SOC_BIAS_PREPARE),
     (⟨9, SND_SOC_BIAS_PREPARE⟩, SND_SOC_BIAS_STANDBY)] rfl

/-- C9: a notification whose context belongs to a device other than the
codec DAI's device makes the handler return 0 with the state unchanged (no
actuator call, every line level as before), for every previous and every
requested level. -/
theorem C9_foreign_context_ignored (s : State) (rtd : snd_soc_pcm_runtime)
    (dapm : snd_soc_dapm_context) (level : snd_soc_bias_level)
    (hdev : dapm.dev ≠ rtd.codec_dai.dev) :
    snd_rpi_iqaudio_set_bias_level s rtd dapm level = (s, 0) := by
  simp [snd_rpi_iqaudio_set_bias_level, hdev]

/-- Witness for C9: a mute line is configured and the pair is STANDBY to
PREPARE, but the context is on device 8 while the codec is device 9. -/
theorem C9_foreign_context_ignored_witness :
    (8 : Nat) ≠ sample_rtd.codec_dai.dev ∧
    snd_rpi_iqaudio_set_bias_level sample_state sample_rtd
        ⟨8, SND_SOC_BIAS_STANDBY⟩ SND_SOC_BIAS_PREPARE = (sample_state, 0) :=
  ⟨by decide, C9_foreign_context_ignored sample_state sample_rtd
    ⟨8, SND_SOC_BIAS_STANDBY⟩ SND_SOC_BIAS_PREPARE (by decide)⟩

/-! ## The mute actuator -/

/-- C8: for every state (any starting line levels, any `mute_gpio`), muting
twice in a row leaves every line at the level one mute leaves it at, and
unmuting twice leaves every line at the level one unmute leaves it at. -/
theorem C8_mute_unmute_idempotent_on_level (s : State) :
    (snd_rpi_iqaudio_gpio_mute (snd_rpi_iqaudio_gpio_mute s)).gpio
      = (snd_rpi_iqaudio_gpio_mute s).gpio ∧
    (snd_rpi_iqaudio_gpio_unmute (snd_rpi_iqaudio_gpio_unmute s)).gpio
      = (snd_rpi_iqaudio_gpio_unmute s).gpio := by
  cases hp : s.mute_gpio with
  | null => simp [gpio_mute_null s hp, gpio_unmute_null s hp]
  | err e =>
      simp [snd_rpi_iqaudio_gpio_mute, snd_rpi_iqaudio_gpio_unmute, hp, gpio_ptr.nonnull,
        gpiod_set_value_cansleep, emit]
  | desc d =>
      simp [snd_rpi_iqaudio_gpio_mute, snd_rpi_iqaudio_gpio_unmute, hp, gpio_ptr.nonnull,
        gpiod_set_value_cansleep, emit]

/-! ## Teardown -/

/-- C6: with a mute line configured on line `d`, after any run of
bias-level notifications (so at any bias level and any line level), `remove`
leaves line `d` at level 0 (muted), its last actuator call being the write
of 0 to `d`, and returns what the card unregistration returned, whatever
that is. -/
theorem C6_remove_leaves_line_muted (s : State) (rtd : snd_soc_pcm_runtime)
    (evs : List (snd_soc_dapm_context × snd_soc_bias_level)) (d : Nat)
    (unregister_ret : Int) (hline : s.mute_gpio = gpio_ptr.desc d) :
    (snd_rpi_iqaudio_dac_remove (run_bias_levels rtd s evs) unregister_ret).1.gpio d = 0 ∧
    actuator_calls
        (snd_rpi_iqaudio_dac_remove (run_bias_levels rtd s evs) unregister_ret).1.trace
      = actuator_calls (run_bias_levels rtd s evs).trace ++ [(gpio_ptr.desc d, 0)] ∧
    (snd_rpi_iqaudio_dac_remove (run_bias_levels rtd s evs) unregister_ret).2
      = unregister_ret := by
  have h : (run_bias_levels rtd s evs).mute_gpio = gpio_ptr.desc d := by
    rw [run_bias_levels_keeps_mute_gpio, hline]
  simp [snd_rpi_iqaudio_dac_remove, gpio_mute_desc _ d h, emit, actuator_calls_append,
    actuator_calls]

/-- Witness for C6: line 22 at level 1, unmuted once more by a STANDBY to
PREPARE notification, then removed with the unregistration failing (-16). -/
theorem C6_remove_leaves_line_muted_witness :
    (snd_rpi_iqaudio_dac_remove (run_bias_levels sample_rtd sample_state
        [(⟨9, SND_SOC_BIAS_STANDBY⟩, SND_SOC_BIAS_PREPARE)]) (-16)).1.gpio 22 = 0 ∧
    actuator_calls
        (snd_rpi_iqaudio_dac_remove (run_bias_levels sample_rtd sample_state
          [(⟨9, SND_SOC_BIAS_STANDBY⟩, SND_SOC_BIAS_PREPARE)]) (-16)).1.trace
      = actuator_calls (run_bias_levels sample_rtd sample_state
          [(⟨9, SND_SOC_BIAS_STANDBY⟩, SND_SOC_BIAS_PREPARE)]).trace
        ++ [(gpio_ptr.desc 22, 0)] ∧
    (snd_rpi_iqaudio_dac_remove (run_bias_levels sample_rtd sample_state
        [(⟨9, SND_SOC_BIAS_STANDBY⟩, SND_SOC_BIAS_PREPARE)]) (-16)).2 = -16 :=
  C6_remove_leaves_line_muted sample_state sample_rtd
    [(⟨9, SND_SOC_BIAS_STANDBY⟩, SND_SOC_BIAS_PREPARE)] 22 (-16) rfl

/-! ## Clock negotiation -/

/-- C2 fails as stated: at the sample rate 8388608 (`2^23`, a value of
`unsigned int`) the product with 512 is `2^32`, which wraps to 0 in
`unsigned int`; the master clock requested is 0 Hz, not 4294967296 Hz. -/
theorem C2_counterexample_rate_wraps :
    (snd_rpi_iqaudio_dac_hw_params true sample_state sample_rtd 8388608 16).1.trace
      = [Event.snd_soc_dai_set_sysclk 7 0 0 clock_dir.SND_SOC_CLOCK_OUT] ∧
    ¬ (clock_calls
        (snd_rpi_iqaudio_dac_hw_params true sample_state sample_rtd 8388608 16).1.trace
      = [Event.snd_soc_dai_set_sysclk 7 0 (8388608 * 512) clock_dir.SND_SOC_CLOCK_OUT]) := by
  constructor
  · decide
  · decide

/-- C2, amended: with `ROCKCHIP_AUDIO` defined, for every sample rate `r`
with `0 < r < 8388608` the negotiation issues exactly one call, a request
for a master clock of `r * 512` Hz (clock id 0, direction out) on the CPU
DAI, and returns what that call returns. -/
theorem C2_mclk_exact_below_wrap (s : State) (rtd : snd_soc_pcm_runtime) (r : Nat)
    (physical_width : Int) (hpos : 0 < r) (hlt : r < 8388608) :
    snd_rpi_iqaudio_dac_hw_params true s rtd r physical_width
      = (emit s (Event.snd_soc_dai_set_sysclk rtd.cpu_dai.dev 0 (r * 512)
            clock_dir.SND_SOC_CLOCK_OUT),
         rtd.cpu_dai.set_sysclk 0 (r * 512) clock_dir.SND_SOC_CLOCK_OUT) := by
  have hr : uint_mul r ROCKCHIP_I2S_MCLK = r * 512 := by
    unfold uint_mul ROCKCHIP_I2S_MCLK UINT_RANGE
    omega
  simp [snd_rpi_iqaudio_dac_hw_params, hr]

/-- Witness for amended C2: 48 kHz gives a request for 24576000 Hz. -/
theorem C2_mclk_exact_below_wrap_witness :
    snd_rpi_iqaudio_dac_hw_params true sample_state sample_rtd 48000 16
      = (emit sample_state (Event.snd_soc_dai_set_sysclk sample_rtd.cpu_dai.dev 0
            (48000 * 512) clock_dir.SND_SOC_CLOCK_OUT),
         sample_rtd.cpu_dai.set_sysclk 0 (48000 * 512) clock_dir.SND_SOC_CLOCK_OUT) :=
  C2_mclk_exact_below_wrap sample_state sample_rtd 48000 16 (by decide) (by decide)

/-- C3: with `ROCKCHIP_AUDIO` not defined, for every positive physical
sample width `b` (a value of `int`, so at most `INT_MAX`) and every sample
rate, the negotiation issues exactly one call, a request for the bit-clock
ratio `b * 2` on the CPU DAI, and returns what that call returns. -/
theorem C3_bclk_ratio_twice_width (s : State) (rtd : snd_soc_pcm_runtime) (rate b : Nat)
    (hpos : 0 < b) (hint : (b : Int) ≤ INT_MAX) :
    snd_rpi_iqaudio_dac_hw_params false s rtd rate (b : Int)
      = (emit s (Event.snd_soc_dai_set_bclk_ratio rtd.cpu_dai.dev (b * 2)),
         rtd.cpu_dai.set_bclk_ratio (b * 2)) := by
  have hb : to_uint (b : Int) = b := by
    unfold to_uint
    unfold INT_MAX at hint
    omega
  have hr : uint_mul b 2 = b * 2 := by
    unfold uint_mul UINT_RANGE
    unfold INT_MAX at hint
    omega
  simp [snd_rpi_iqaudio_dac_hw_params, hb, hr]

/-- Witness for C3: a 32-bit physical width at 44.1 kHz gives ratio 64. -/
theorem C3_bclk_ratio_twice_width_witness :
    snd_rpi_iqaudio_dac_hw_params false sample_state sample_rtd 44100 ((32 : Nat) : Int)
      = (emit sample_state (Event.snd_soc_dai_set_bclk_ratio sample_rtd.cpu_dai.dev (32 * 2)),
         sample_rtd.cpu_dai.set_bclk_ratio (32 * 2)) :=
  C3_bclk_ratio_twice_width sample_state sample_rtd 44100 32 (by decide) (by decide)

/-- C4 fails as stated: with a sample rate of 0 (master-clock mode) or a
physical width of 0 (bit-clock mode) and a DAI that accepts every request,
the negotiation returns 0 (success, no error) and does issue a clock
configuration call, with the value 0. -/
theorem C4_counterexample_zero_accepted :
    ¬ ((snd_rpi_iqaudio_dac_hw_params true sample_state sample_rtd 0 16).2 < 0 ∧
        clock_calls
          (snd_rpi_iqaudio_dac_hw_params true sample_state sample_rtd 0 16).1.trace = []) ∧
    (snd_rpi_iqaudio_dac_hw_params true sample_state sample_rtd 0 16).2 = 0 ∧
    clock_calls (snd_rpi_iqaudio_dac_hw_params true sample_state sample_rtd 0 16).1.trace
      = [Event.snd_soc_dai_set_sysclk 7 0 0 clock_dir.SND_SOC_CLOCK_OUT] ∧
    (snd_rpi_iqaudio_dac_hw_params false sample_state sample_rtd 48000 0).2 = 0 ∧
    clock_calls (snd_rpi_iqaudio_dac_hw_params false sample_state sample_rtd 48000 0).1.trace
      = [Event.snd_soc_dai_set_bclk_ratio 7 0] := by
  refine ⟨?_, ?_, ?_, ?_, ?_⟩ <;> decide

/-- C4, amended: the negotiation validates nothing.  For every sample rate
and every physical width (zero and negative ones included) it issues exactly
one clock configuration call, on the CPU DAI, and returns what that very
call returns.  In master-clock mode the call requests `(rate * 512) mod 2^32`
Hz with clock id 0 and direction out; in bit-clock mode it requests the
ratio `((width mod 2^32) * 2) mod 2^32`.  With rate 0 in master-clock mode
this is a request for 0 Hz, with width 0 in bit-clock mode a request for
ratio 0.  The state changes by that one trace entry only. -/
theorem C4_no_validation_one_clock_call (s : State) (rtd : snd_soc_pcm_runtime)
    (rate : Nat) (physical_width : Int) :
    snd_rpi_iqaudio_dac_hw_params true s rtd rate physical_width
      = (emit s (Event.snd_soc_dai_set_sysclk rtd.cpu_dai.dev 0
            (rate * 512 % 4294967296) clock_dir.SND_SOC_CLOCK_OUT),
         rtd.cpu_dai.set_sysclk 0 (rate * 512 % 4294967296)
            clock_dir.SND_SOC_CLOCK_OUT) ∧
    snd_rpi_iqaudio_dac_hw_params false s rtd rate physical_width
      = (emit s (Event.snd_soc_dai_set_bclk_ratio rtd.cpu_dai.dev
            ((physical_width % 4294967296).toNat * 2 % 4294967296)),
         rtd.cpu_dai.set_bclk_ratio
            ((physical_width % 4294967296).toNat * 2 % 4294967296)) ∧
    snd_rpi_iqaudio_dac_hw_params true s rtd 0 physical_width
      = (emit s (Event.snd_soc_dai_set_sysclk rtd.cpu_dai.dev 0 0 clock_dir.SND_SOC_CLOCK_OUT),
         rtd.cpu_dai.set_sysclk 0 0 clock_dir.SND_SOC_CLOCK_OUT) ∧
    snd_rpi_iqaudio_dac_hw_params false s rtd rate 0
      = (emit s (Event.snd_soc_dai_set_bclk_ratio rtd.cpu_dai.dev 0),
         rtd.cpu_dai.set_bclk_ratio 0) ∧
    clock_calls (snd_rpi_iqaudio_dac_hw_params true s rtd rate physical_width).1.trace
      = clock_calls s.trace ++
          [Event.snd_soc_dai_set_sysclk rtd.cpu_dai.dev 0 (rate * 512 % 4294967296)
            clock_dir.SND_SOC_CLOCK_OUT] ∧
    clock_calls (snd_rpi_iqaudio_dac_hw_params false s rtd rate physical_width).1.trace
      = clock_calls s.trace ++
          [Event.snd_soc_dai_set_bclk_ratio rtd.cpu_dai.dev
            ((physical_width % 4294967296).toNat * 2 % 4294967296)] := by
  refine ⟨?_, ?_, ?_, ?_, ?_, ?_⟩
  · simp [snd_rpi_iqaudio_dac_hw_params, uint_mul, ROCKCHIP_I2S_MCLK, UINT_RANGE]
  · simp [snd_rpi_iqaudio_dac_hw_params, uint_mul, to_uint, UINT_RANGE]
  · simp [snd_rpi_iqaudio_dac_hw_params, uint_mul]
  · simp [snd_rpi_iqaudio_dac_hw_params, uint_mul, to_uint]
  · simp [snd_rpi_iqaudio_dac_hw_params, uint_mul, ROCKCHIP_I2S_MCLK, UINT_RANGE, emit,
      clock_calls_append, clock_calls]
  · simp [snd_rpi_iqaudio_dac_hw_params, uint_mul, to_uint, UINT_RANGE, emit,
      clock_calls_append, clock_calls]

/-! ## Startup -/

/-- C7: when the device tree requests the one-shot unmute and the GPIO
lookup yields line `d`, `probe` returns what the card registration returned
and its calls are, in order: the GPIO lookup, the card registration, and
then, only when the registration succeeded (returned 0), the one unmute
write of 1 to line `d` (after its log line).  When the registration failed
there is no actuator call.  This holds for both values of the auto-mute
property. -/
theorem C7_probe_one_shot_unmute (s : State) (pdev : platform_device) (np : device_node)
    (d : Nat) (register_ret : Int) (hnode : pdev.of_node = some np)
    (hunmute : np.unmute_amp = true) :
    (snd_rpi_iqaudio_dac_probe s pdev (gpio_ptr.desc d) register_ret).2 = register_ret ∧
    (snd_rpi_iqaudio_dac_probe s pdev (gpio_ptr.desc d) register_ret).1.trace
      = s.trace ++
        [Event.devm_gpiod_get_optional pdev.dev "mute" (gpio_ptr.desc d),
         Event.snd_soc_register_card register_ret] ++
        (if register_ret = 0 then
          [Event.dev_info (some pdev.dev)
              "snd_rpi_iqaudio_gpio_unmute: un-muting amp using GPIO22\n",
           Event.gpiod_set_value_cansleep (gpio_ptr.desc d) 1]
        else if register_ret ≠ -EPROBE_DEFER then
          [Event.dev_err pdev.dev "snd_soc_register_card() failed: %d\n" register_ret]
        else []) ∧
    actuator_calls (snd_rpi_iqaudio_dac_probe s pdev (gpio_ptr.desc d) register_ret).1.trace
      = actuator_calls s.trace ++ (if register_ret = 0 then [(gpio_ptr.desc d, 1)] else []) := by
  have key : (snd_rpi_iqaudio_dac_probe s pdev (gpio_ptr.desc d) register_ret).2 = register_ret ∧
      (snd_rpi_iqaudio_dac_probe s pdev (gpio_ptr.desc d) register_ret).1.trace
        = s.trace ++
          [Event.devm_gpiod_get_optional pdev.dev "mute" (gpio_ptr.desc d),
           Event.snd_soc_register_card register_ret] ++
          (if register_ret = 0 then
            [Event.dev_info (some pdev.dev)
                "snd_rpi_iqaudio_gpio_unmute: un-muting amp using GPIO22\n",
             Event.gpiod_set_value_cansleep (gpio_ptr.desc d) 1]
          else if register_ret ≠ -EPROBE_DEFER then
            [Event.dev_err pdev.dev "snd_soc_register_card() failed: %d\n" register_ret]
          else []) := by
    by_cases h0 : register_ret = 0
    · subst h0
      cases ha : np.auto_mute_amp <;>
        simp [snd_rpi_iqaudio_dac_probe, hnode, hunmute, ha, probe_of_node, probe_register,
          devm_gpiod_get_optional, IS_ERR, gpio_ptr.nonnull, emit,
          snd_rpi_iqaudio_gpio_unmute, gpiod_set_value_cansleep]
    · by_cases hd : register_ret = -EPROBE_DEFER
      · subst hd
        cases ha : np.auto_mute_amp <;>
          simp [snd_rpi_iqaudio_dac_probe, hnode, hunmute, ha, probe_of_node, probe_register,
            devm_gpiod_get_optional, IS_ERR, gpio_ptr.nonnull, emit, EPROBE_DEFER]
      · cases ha : np.auto_mute_amp <;>
          simp [snd_rpi_iqaudio_dac_probe, hnode, hunmute, ha, probe_of_node, probe_register,
            devm_gpiod_get_optional, IS_ERR, gpio_ptr.nonnull, emit, h0, hd]
  refine ⟨key.1, key.2, ?_⟩
  rw [key.2]
  by_cases h0 : register_ret = 0
  · simp [h0, actuator_calls_append, actuator_calls]
  · by_cases hd : register_ret = -EPROBE_DEFER
    · subst hd
      simp [EPROBE_DEFER, actuator_calls_append, actuator_calls]
    · simp [h0, hd, actuator_calls_append, actuator_calls]

/-- Witness for C7: auto-mute off, one-shot unmute requested, line 22 found,
registration succeeding, starting from the state at module load. -/
theorem C7_probe_one_shot_unmute_witness :
    (snd_rpi_iqaudio_dac_probe (module_init (fun _ => 0)) (sample_pdev false true)
        (gpio_ptr.desc 22) 0).2 = 0 ∧
    (snd_rpi_iqaudio_dac_probe (module_init (fun _ => 0)) (sample_pdev false true)
        (gpio_ptr.desc 22) 0).1.trace
      = (module_init (fun _ => 0)).trace ++
        [Event.devm_gpiod_get_optional (sample_pdev false true).dev "mute" (gpio_ptr.desc 22),
         Event.snd_soc_register_card 0] ++
        (if (0 : Int) = 0 then
          [Event.dev_info (some (sample_pdev false true).dev)
              "snd_rpi_iqaudio_gpio_unmute: un-muting amp using GPIO22\n",
           Event.gpiod_set_value_cansleep (gpio_ptr.desc 22) 1]
        else if (0 : Int) ≠ -EPROBE_DEFER then
          [Event.dev_err (sample_pdev false true).dev
              "snd_soc_register_card() failed: %d\n" 0]
        else []) ∧
    actuator_calls (snd_rpi_iqaudio_dac_probe (module_init (fun _ => 0))
        (sample_pdev false true) (gpio_ptr.desc 22) 0).1.trace
      = actuator_calls (module_init (fun _ => 0)).trace ++
          (if (0 : Int) = 0 then [(gpio_ptr.desc 22, 1)] else []) :=
  C7_probe_one_shot_unmute (module_init (fun _ => 0)) (sample_pdev false true)
    (sample_node false true) 22 0 rfl rfl

/-! ## Auto-mute disabled -/

/-- C10: starting from a card without the bias-level hook (as at module
load), a `probe` whose device tree does not enable auto-mute leaves the hook
uninstalled, whatever the GPIO lookup and the registration return (so also
when a mute line was acquired for the one-shot unmute); every bias-level
change the framework then dispatches, and every run of them, leaves the
state unchanged and returns 0. -/
theorem C10_auto_mute_disabled_no_hook (s : State) (pdev : platform_device)
    (gpiod : gpio_ptr) (register_ret : Int) (rtd : snd_soc_pcm_runtime)
    (dapm : snd_soc_dapm_context) (level : snd_soc_bias_level)
    (evs : List (snd_soc_dapm_context × snd_soc_bias_level))
    (hhook : s.card.set_bias_level = false)
    (hauto : ∀ np, pdev.of_node = some np → np.auto_mute_amp = false) :
    (snd_rpi_iqaudio_dac_probe s pdev gpiod register_ret).1.card.set_bias_level = false ∧
    card_set_bias_level (snd_rpi_iqaudio_dac_probe s pdev gpiod register_ret).1 rtd dapm level
      = ((snd_rpi_iqaudio_dac_probe s pdev gpiod register_ret).1, 0) ∧
    run_card_bias_levels rtd (snd_rpi_iqaudio_dac_probe s pdev gpiod register_ret).1 evs
      = (snd_rpi_iqaudio_dac_probe s pdev gpiod register_ret).1 := by
  have hreg : ∀ (t : State) (u : Bool), t.card.set_bias_level = false →
      (probe_register t pdev u register_ret).1.card.set_bias_level = false := by
    intro t u ht
    unfold probe_register
    simp only [emit]
    split
    · split <;> exact ht
    · split
      · unfold snd_rpi_iqaudio_gpio_unmute gpiod_set_value_cansleep emit
        split
        · split <;> exact ht
        · exact ht
      · exact ht
  have hprobe : (snd_rpi_iqaudio_dac_probe s pdev gpiod register_ret).1.card.set_bias_level
      = false := by
    cases hn : pdev.of_node with
    | none =>
        simp only [snd_rpi_iqaudio_dac_probe, hn]
        exact hreg _ _ hhook
    | some np =>
        have ha := hauto np hn
        cases hu : np.unmute_amp <;> cases gpiod <;>
          simp [snd_rpi_iqaudio_dac_probe, hn, ha, hu, IS_ERR, emit, devm_gpiod_get_optional,
            probe_of_node] <;>
          first
            | exact hhook
            | (apply hreg; exact hhook)
  have hstep : ∀ (dp : snd_soc_dapm_context) (lv : snd_soc_bias_level),
      card_set_bias_level (snd_rpi_iqaudio_dac_probe s pdev gpiod register_ret).1 rtd dp lv
        = ((snd_rpi_iqaudio_dac_probe s pdev gpiod register_ret).1, 0) := by
    intro dp lv
    simp [card_set_bias_level, hprobe]
  refine ⟨hprobe, hstep dapm level, ?_⟩
  induction evs with
  | nil => rfl
  | cons e rest ih =>
      obtain ⟨dp, lv⟩ := e
      simp only [run_card_bias_levels, hstep dp lv]
      exact ih

/-- Witness for C10: from module load, auto-mute off, one-shot unmute
requested, line 22 acquired, registration succeeding; STANDBY to PREPARE and
back on the codec's device. -/
theorem C10_auto_mute_disabled_no_hook_witness :
    (snd_rpi_iqaudio_dac_probe (module_init (fun _ => 0)) (sample_pdev false true)
        (gpio_ptr.desc 22) 0).1.card.set_bias_level = false ∧
    card_set_bias_level (snd_rpi_iqaudio_dac_probe (module_init (fun _ => 0))
        (sample_pdev false true) (gpio_ptr.desc 22) 0).1 sample_rtd
        ⟨9, SND_SOC_BIAS_STANDBY⟩ SND_SOC_BIAS_PREPARE
      = ((snd_rpi_iqaudio_dac_probe (module_init (fun _ => 0)) (sample_pdev false true)
          (gpio_ptr.desc 22) 0).1, 0) ∧
    run_card_bias_levels sample_rtd (snd_rpi_iqaudio_dac_probe (module_init (fun _ => 0))
        (sample_pdev false true) (gpio_ptr.desc 22) 0).1
        [(⟨9, SND_SOC_BIAS_STANDBY⟩, SND_SOC_BIAS_PREPARE),
         (⟨9, SND_SOC_BIAS_PREPARE⟩, SND_SOC_BIAS_STANDBY)]
      = (snd_rpi_iqaudio_dac_probe (module_init (fun _ => 0)) (sample_pdev false true)
          (gpio_ptr.desc 22) 0).1 :=
  C10_auto_mute_disabled_no_hook (module_init (fun _ => 0)) (sample_pdev false true)
    (gpio_ptr.desc 22) 0 sample_rtd ⟨9, SND_SOC_BIAS_STANDBY⟩ SND_SOC_BIAS_PREPARE
    [(⟨9, SND_SOC_BIAS_STANDBY⟩, SND_SOC_BIAS_PREPARE),
     (⟨9, SND_SOC_BIAS_PREPARE⟩, SND_SOC_BIAS_STANDBY)] rfl
    (by intro np h; cases h; rfl)

/-- The handler body does not test the auto-mute property.  After a `probe`
with neither mute property set no line is acquired and a direct call of the
handler writes nothing; after a `probe` with auto-mute off that acquired
line 22 for the one-shot unmute, a direct call of the handler on STANDBY to
PREPARE does write 1 to the line.  Only the missing hook keeps bias-level
changes from reaching the handler there. -/
theorem set_bias_level_body_ignores_auto_mute :
    actuator_calls (snd_rpi_iqaudio_set_bias_level
        (snd_rpi_iqaudio_dac_probe (module_init (fun _ => 0)) (sample_pdev false false)
          (gpio_ptr.desc 22) 0).1 sample_rtd ⟨9, SND_SOC_BIAS_STANDBY⟩
        SND_SOC_BIAS_PREPARE).1.trace = [] ∧
    actuator_calls (snd_rpi_iqaudio_set_bias_level
        (snd_rpi_iqaudio_dac_probe (module_init (fun _ => 0)) (sample_pdev false true)
          (gpio_ptr.desc 22) 1).1 sample_rtd ⟨9, SND_SOC_BIAS_STANDBY⟩
        SND_SOC_BIAS_PREPARE).1.trace = [(gpio_ptr.desc 22, 1)] := by
  constructor <;> decide

end IqaudioDac
